import Mathlib

/-!
Verification of the AAPLTracker availability checker (src/main.py) against its
natural-language specification.  The Python program is shallowly embedded:
JSON documents become an inductive `Json` type, Python dictionaries become
association lists, Python truthiness, `str()`, `lower()` and `or` are modelled
explicitly, and code that can raise becomes `Except PyErr`.
-/

namespace AAPLTracker

/-- JSON values as produced by parsing the fulfilment payload.  Numbers are
modelled as integers; no claim depends on fractional values. -/
inductive Json where
  | null
  | bool (b : Bool)
  | num (n : Int)
  | str (s : String)
  | arr (items : List Json)
  | obj (fields : List (String × Json))

/-- Python exceptions that the embedded code can raise. -/
inductive PyErr where
  | attributeError
  | keyError
deriving DecidableEq, Repr

/-- Python truthiness of a JSON value (None, False, 0, "", [] and empty dicts
are falsy). -/
def truthy : Json → Bool
  | .null => false
  | .bool b => b
  | .num n => n != 0
  | .str s => !s.isEmpty
  | .arr xs => !xs.isEmpty
  | .obj kvs => !kvs.isEmpty

/-- Python `a or b`: the first operand when truthy, otherwise the second. -/
def pyOr (a b : Json) : Json := if truthy a then a else b

/-- First binding of a key in an association list (dictionaries in the
payload have unique keys, so first match equals dictionary lookup). -/
def getField : List (String × Json) → String → Option Json
  | [], _ => none
  | (k, v) :: rest, key => if k == key then some v else getField rest key

/-- Python `d.get(key)` on a dictionary: the value, or None when absent. -/
def pyGet (kvs : List (String × Json)) (k : String) : Json :=
  (getField kvs k).getD Json.null

mutual
/-- Python `repr` of a JSON value (quotes are written with escapes). -/
def pyRepr : Json → String
  | .null => "None"
  | .bool true => "True"
  | .bool false => "False"
  | .num n => toString n
  | .str s => "\x27" ++ s ++ "\x27"
  | .arr xs => "[" ++ pyReprList xs ++ "]"
  | .obj kvs => "\x7b" ++ pyReprFields kvs ++ "\x7d"

/-- Comma-separated reprs of list elements. -/
def pyReprList : List Json → String
  | [] => ""
  | [x] => pyRepr x
  | x :: rest => pyRepr x ++ ", " ++ pyReprList rest

/-- Comma-separated reprs of dictionary entries. -/
def pyReprFields : List (String × Json) → String
  | [] => ""
  | [(k, v)] => "\x27" ++ k ++ "\x27: " ++ pyRepr v
  | (k, v) :: rest => "\x27" ++ k ++ "\x27: " ++ pyRepr v ++ ", " ++ pyReprFields rest
end

/-- Python `str()` of a JSON value. -/
def pyStr (j : Json) : String :=
  match j with
  | .str s => s
  | other => pyRepr other

/-- Python `str.lower()` (character-wise; ASCII letters are lowered). -/
def pyLower (s : String) : String := String.mk (s.toList.map Char.toLower)

/-- Python `s.replace(" ", "")`: removal of space characters (U+0020 only). -/
def removeSpaces (s : String) : String :=
  String.mk (s.toList.filter (fun c => c != ' '))

/-- Whether the first list is an initial segment of the second. -/
def leadsWith : List Char → List Char → Bool
  | [], _ => true
  | _ :: _, [] => false
  | a :: as, b :: bs => (a == b) && leadsWith as bs

/-- Python `needle in hay` on character lists. -/
def subIn : List Char → List Char → Bool
  | needle, [] => needle.isEmpty
  | needle, hay@(_ :: t) => leadsWith needle hay || subIn needle t

/-- Python substring test `needle in s`. -/
def hasSub (needle s : String) : Bool := subIn needle.toList s.toList

/-- Metadata describing a pickup query for a specific model family
(dataclass `ModelQuery` in src/main.py). -/
structure ModelQuery where
  label : String
  search_term : String
  part_numbers : Option (List String) := none
deriving DecidableEq, Repr

/-- One availability datapoint for a store/product combination
(dataclass `AvailabilityRecord` in src/main.py). -/
structure AvailabilityRecord where
  model_label : String
  store_name : String
  store_number : Option String
  city : Option String
  part_number : String
  product_title : Option String
  pickup_status : String
  pickup_available : Bool
  pickup_quote : Option String
deriving DecidableEq, Repr

/-- The fixed catalog of supported variants (`DEFAULT_MODELS` in src/main.py). -/
def DEFAULT_MODELS : List ModelQuery :=
  [ { label := "iPhone 17 Pro", search_term := "iPhone 17 Pro" },
    { label := "iPhone 17 Pro Max", search_term := "iPhone 17 Pro Max" } ]

/-- Conversion used for optional record fields: Python
`str(v) if v is not None else None`. -/
def jopt (v : Json) : Option String :=
  match v with
  | .null => none
  | other => some (pyStr other)

/-- Attribute-checked `j.get(k, d)`: succeeds on dictionaries, raises
AttributeError on every other value (the behaviour of the chained
`.get` calls in `iter_availability`, lines 120-125 of src/main.py). -/
def jsonGetD (j : Json) (k : String) (d : Json) : Except PyErr Json :=
  match j with
  | .obj kvs => .ok ((getField kvs k).getD d)
  | _ => .error .attributeError

/-- The four-level descent
`payload.get("body", {}).get("content", {}).get("pickupMessage", {}).get("stores", [])`.
The argument is the top-level dictionary, so the first lookup cannot raise. -/
def descendStores (payload : List (String × Json)) : Except PyErr Json := do
  let body := (getField payload "body").getD (Json.obj [])
  let content ← jsonGetD body "content" (Json.obj [])
  let pick ← jsonGetD content "pickupMessage" (Json.obj [])
  jsonGetD pick "stores" (Json.arr [])

/-- Python iteration over a JSON value: lists yield elements, strings yield
one-character strings, dictionaries yield their keys; other values are not
`Iterable` (the `isinstance(stores, Iterable)` guard, line 126). -/
def pyIterate : Json → Option (List Json)
  | .arr xs => some xs
  | .str s => some (s.toList.map (fun c => Json.str (String.mk [c])))
  | .obj kvs => some (kvs.map (fun kv => Json.str kv.1))
  | _ => none

/-- The fixed allow-list of normalized statuses (line 153 of src/main.py). -/
def availAllowList (s : String) : Bool :=
  s == "available" || s == "availabletoday" || s == "availablesoon"

/-- Derivation of `pickup_available` from the lowercased status string:
allow-list membership of the space-stripped status, overridden to false when
the status contains "not" or "unavailable" (lines 152-155 of src/main.py). -/
def statusToAvail (status : String) : Bool :=
  if hasSub "not" status || hasSub "unavailable" status then false
  else availAllowList (removeSpaces status)

/-- The skip test `if part_filter and part_number not in part_filter`
(line 139): a None or empty filter is falsy and never skips. -/
def partFilterSkip (part_filter : Option (List String)) (part_number : String) : Bool :=
  match part_filter with
  | none => false
  | some f => !f.isEmpty && !f.contains part_number

/-- Body of the inner loop of `iter_availability` (lines 138-166): the record
produced for one `(part_number, info)` entry of a store, or `none` when the
entry is skipped. -/
def recordForPart (model_label store_name : String)
    (store_number city : Option String) (part_filter : Option (List String))
    (part_number : String) (info : Json) : Option AvailabilityRecord :=
  if partFilterSkip part_filter part_number then none
  else
    match info with
    | .obj ikvs =>
      let status_raw := pyOr (pyGet ikvs "pickupDisplay")
        (pyOr (pyGet ikvs "storePickupLabel") (Json.str "unknown"))
      let status := pyLower (pyStr status_raw)
      let message := pyOr (pyGet ikvs "pickupSearchQuote")
        (pyOr (pyGet ikvs "storePickupQuote")
          (pyOr (pyGet ikvs "productAvailabilityText") (pyGet ikvs "storePickupQuoteShort")))
      let title := pyOr (pyGet ikvs "storePickupProductTitle") (pyGet ikvs "title")
      some { model_label := model_label
             store_name := store_name
             store_number := store_number
             city := city
             part_number := part_number
             product_title := jopt title
             pickup_status := status
             pickup_available := statusToAvail status
             pickup_quote := jopt message }
    | _ => none

/-- Body of the outer loop of `iter_availability` (lines 129-166): the records
produced for one store entry.  Note the `city` computation mirrors line 134 of
src/main.py, where the conditional expression
`a or b if isinstance(store.get("address"), dict) else None`
groups as `(a or b) if ... else None`. -/
def recordsForStore (model_label : String) (part_filter : Option (List String))
    (store : Json) : List AvailabilityRecord :=
  match store with
  | .obj kvs =>
    let store_name := pyStr (pyOr (pyGet kvs "storeName")
      (pyOr (pyGet kvs "retailStoreName") (Json.str "Unknown store")))
    let store_number := jopt (pyGet kvs "storeNumber")
    let city :=
      match pyGet kvs "address" with
      | .obj akvs => jopt (pyOr (pyGet kvs "city") (pyGet akvs "city"))
      | _ => none
    match (getField kvs "partsAvailability").getD (Json.obj []) with
    | .obj pkvs =>
      pkvs.filterMap (fun kv =>
        recordForPart model_label store_name store_number city part_filter kv.1 kv.2)
    | _ => []
  | _ => []

/-- The `iter_availability` generator of src/main.py, returned as the list of
yielded records; a raised exception becomes `Except.error`. -/
def iter_availability (payload : List (String × Json)) (model_label : String)
    (part_filter : Option (List String) := none) :
    Except PyErr (List AvailabilityRecord) :=
  match descendStores payload with
  | .error e => .error e
  | .ok stores =>
    match pyIterate stores with
    | none => .ok []
    | some items => .ok ((items.map (recordsForStore model_label part_filter)).flatten)

/-- Part-number keys of one store entry, exactly as the store loop of
`iter_availability` reaches them (the keys of `partsAvailability` when that
field is a dictionary of a dictionary-shaped store). -/
def storePartKeys : Json → List String
  | .obj kvs =>
    match (getField kvs "partsAvailability").getD (Json.obj []) with
    | .obj pkvs => pkvs.map (fun kv => kv.1)
    | _ => []
  | _ => []

/-- Part-number keys of every store that the descent of `iter_availability`
reaches in a payload. -/
def payloadPartKeys (payload : List (String × Json)) : List String :=
  match descendStores payload with
  | .error _ => []
  | .ok stores =>
    match pyIterate stores with
    | none => []
    | some items => (items.map storePartKeys).flatten

/-- Last-wins lookup of a label in a model list, mirroring the dictionary
comprehension `\x7bmodel.label: model for model in DEFAULT_MODELS\x7d`
(line 222 of src/main.py). -/
def lookupLabel (models : List ModelQuery) (l : String) : Option ModelQuery :=
  (models.filter (fun m => m.label == l)).getLast?

/-- The list comprehension `[label_to_model[label] for label in selected_labels]`
(line 223): left to right, raising KeyError at the first unknown label. -/
def resolveLabels : List String → Except PyErr (List ModelQuery)
  | [] => .ok []
  | l :: rest =>
    match lookupLabel DEFAULT_MODELS l with
    | none => .error .keyError
    | some m =>
      match resolveLabels rest with
      | .ok ms => .ok (m :: ms)
      | .error e => .error e

/-- `resolve_model_queries` of src/main.py (lines 219-223).  A falsy selection
(None or the empty list) yields the full catalog. -/
def resolve_model_queries (selected_labels : Option (List String)) :
    Except PyErr (List ModelQuery) :=
  match selected_labels with
  | none => .ok DEFAULT_MODELS
  | some [] => .ok DEFAULT_MODELS
  | some labels => resolveLabels labels

/-- First-seen-order de-duplication with an accumulator of already seen
elements. -/
def dedupAux (seen : List String) : List String → List String
  | [] => []
  | x :: xs => if seen.contains x then dedupAux seen xs else x :: dedupAux (x :: seen) xs

/-- Python `list(dict.fromkeys(xs))`: de-duplication preserving first-seen
order (line 242 of src/main.py). -/
def dictFromKeys (xs : List String) : List String := dedupAux [] xs

/-- Python `set(xs)` where only membership and emptiness are observed
downstream; represented as the de-duplicated element list. -/
def pySet (xs : List String) : List String := dictFromKeys xs

/-- Python set intersection `a & b`, observed through membership only. -/
def pyInter (a b : List String) : List String := a.filter (fun x => b.contains x)

/-- The part list sent to `fetch` for one variant (lines 239-242 of
src/main.py): `query_parts or None`, extended and de-duplicated with
`dict.fromkeys` only when the command line supplied parts. -/
def requested_parts (query_parts cli_parts : List String) : Option (List String) :=
  let rp : Option (List String) := if query_parts.isEmpty then none else some query_parts
  if cli_parts.isEmpty then rp
  else some (dictFromKeys (rp.getD [] ++ cli_parts))

/-- Outcome of the post-fetch filter merge: either the variant is skipped with
the "No overlapping part numbers" message, or normalization proceeds with an
optional filter set. -/
inductive FilterDecision where
  | skipNoOverlap
  | proceed (f : Option (List String))
deriving DecidableEq, Repr

/-- The `combined_filter` computation of `main` (lines 266-274 of src/main.py). -/
def combined_filter (query_parts cli_parts : List String) : FilterDecision :=
  let cf0 : Option (List String) :=
    if query_parts.isEmpty then none else some (pySet query_parts)
  if cli_parts.isEmpty then .proceed cf0
  else
    let cliF := pySet cli_parts
    let cf := match cf0 with | none => cliF | some s => pyInter s cliF
    if !query_parts.isEmpty && cf.isEmpty then .skipNoOverlap
    else .proceed (some cf)

/-- Result of one `client.fetch` attempt: a parsed dictionary payload, or a
transport error (`OSError`, which the retry loop catches). -/
inductive AttemptResult where
  | ok (payload : List (String × Json))
  | transportError

/-- Result of the whole retry loop for one variant. -/
inductive FetchResult where
  | payload (p : List (String × Json))
  | failed
  | noPayload

/-- The retry loop of `main` (lines 243-257 of src/main.py), driven by the
list of per-attempt outcomes (one element per attempt, `retry + 1` in a real
run): the first successful payload wins; an error on the final attempt is the
`return 1` path; an empty attempt list leaves `payload` as None. -/
def fetchLoop : List AttemptResult → FetchResult
  | [] => .noPayload
  | .ok p :: _ => .payload p
  | [.transportError] => .failed
  | .transportError :: rest => fetchLoop rest

/-- What happens to one variant inside the loop of `main`: transport failure
(`return 1`), no payload, the no-overlap skip, an uncaught exception from
normalization, no records, or a printed record list. -/
inductive VariantResult where
  | transportFailure
  | noData
  | noOverlap
  | crashed (e : PyErr)
  | noRecords
  | printed (records : List AvailabilityRecord)

/-- One iteration of the variant loop of `main` (lines 235-293 of src/main.py),
with the fetch attempts supplied as an oracle list. -/
def processVariant (q : ModelQuery) (cli_parts : List String)
    (attempts : List AttemptResult) : VariantResult :=
  let query_parts := q.part_numbers.getD []
  match fetchLoop attempts with
  | .failed => .transportFailure
  | .noPayload => .noData
  | .payload payload =>
    match combined_filter query_parts cli_parts with
    | .skipNoOverlap => .noOverlap
    | .proceed f =>
      match iter_availability payload q.label f with
      | .error e => .crashed e
      | .ok [] => .noRecords
      | .ok rs => .printed rs

/-- Whether a variant neither exhausts its retries nor crashes normalization
(the cases in which the loop of `main` continues to the next variant). -/
def benign (cli_parts : List String) (v : ModelQuery × List AttemptResult) : Bool :=
  match processVariant v.1 cli_parts v.2 with
  | .transportFailure => false
  | .crashed _ => false
  | _ => true

/-- The variant loop of `main` as a whole: the returned exit code, or the
uncaught exception that ends the process. -/
def mainLoop (cli_parts : List String) :
    List (ModelQuery × List AttemptResult) → Except PyErr Nat
  | [] => .ok 0
  | (q, atts) :: rest =>
    match processVariant q cli_parts atts with
    | .transportFailure => .ok 1
    | .crashed e => .error e
    | _ => mainLoop cli_parts rest

/-! Helper lemmas shared by the claim theorems: every record in the output of
`iter_availability` originates from one `(part_number, info)` entry of one
store, and its fields satisfy the relations fixed by `recordForPart`. -/

theorem recordForPart_fields {ml sn : String} {snum city : Option String}
    {pf : Option (List String)} {pn : String} {info : Json} {r : AvailabilityRecord}
    (h : recordForPart ml sn snum city pf pn info = some r) :
    r.part_number = pn ∧ r.pickup_available = statusToAvail r.pickup_status ∧
    partFilterSkip pf pn = false := by
  unfold recordForPart at h
  split at h
  · exact absurd h (by simp)
  · rename_i hskip
    split at h
    · simp only [Option.some.injEq] at h
      subst h
      exact ⟨rfl, rfl, by simpa using hskip⟩
    · exact absurd h (by simp)

theorem mem_recordsForStore {ml : String} {pf : Option (List String)}
    {store : Json} {r : AvailabilityRecord}
    (hr : r ∈ recordsForStore ml pf store) :
    ∃ sn snum city pn info,
      recordForPart ml sn snum city pf pn info = some r ∧ pn ∈ storePartKeys store := by
  cases store with
  | obj kvs =>
    simp only [recordsForStore] at hr
    split at hr
    · rename_i pkvs heq
      rw [List.mem_filterMap] at hr
      obtain ⟨kv, hkv, hf⟩ := hr
      refine ⟨_, _, _, kv.1, kv.2, hf, ?_⟩
      simp only [storePartKeys, heq]
      exact List.mem_map.mpr ⟨kv, hkv, rfl⟩
    · exact absurd hr (by simp)
  | null => exact absurd hr (by simp [recordsForStore])
  | bool b => exact absurd hr (by simp [recordsForStore])
  | num n => exact absurd hr (by simp [recordsForStore])
  | str s => exact absurd hr (by simp [recordsForStore])
  | arr xs => exact absurd hr (by simp [recordsForStore])

theorem record_origin {p : List (String × Json)} {ml : String}
    {pf : Option (List String)} {l : List AvailabilityRecord} {r : AvailabilityRecord}
    (h : iter_availability p ml pf = .ok l) (hr : r ∈ l) :
    r.pickup_available = statusToAvail r.pickup_status ∧
    r.part_number ∈ payloadPartKeys p ∧
    partFilterSkip pf r.part_number = false := by
  unfold iter_availability at h
  split at h
  · exact absurd h (by simp)
  · rename_i stores hdesc
    split at h
    · simp only [Except.ok.injEq] at h
      subst h
      exact absurd hr (by simp)
    · rename_i items hiter
      simp only [Except.ok.injEq] at h
      subst h
      rw [List.mem_flatten] at hr
      obtain ⟨s, hs, hrs⟩ := hr
      rw [List.mem_map] at hs
      obtain ⟨store, hstore, rfl⟩ := hs
      obtain ⟨sn, snum, city, pn, info, hrec, hpn⟩ := mem_recordsForStore hrs
      obtain ⟨hpart, havail, hskip⟩ := recordForPart_fields hrec
      subst hpart
      refine ⟨havail, ?_, hskip⟩
      simp only [payloadPartKeys, hdesc, hiter]
      exact List.mem_flatten.mpr ⟨storePartKeys store, List.mem_map.mpr ⟨store, hstore, rfl⟩, hpn⟩

/-- Whether the value reached by the descent is the missing-stores default
(the empty list), an empty list, or not a list at all. -/
def storesEmptyOrNotList : Json → Bool
  | .arr xs => xs.isEmpty
  | _ => true

/-- The worked example of the specification (section 8): one store, one part,
status "Not Available Today". -/
def exPayload : List (String × Json) :=
  [("body", Json.obj [("content", Json.obj [("pickupMessage", Json.obj
    [("stores", Json.arr [Json.obj
      [("storeName", Json.str "Apple Sanlitun"),
       ("city", Json.str "Beijing"),
       ("partsAvailability", Json.obj
         [("MTUV3CH/A", Json.obj
           [("pickupDisplay", Json.str "Not Available Today")])])]])])])])]

/-- The record that `iter_availability` produces for `exPayload`. -/
def exRecord : AvailabilityRecord :=
  { model_label := "iPhone 17 Pro"
    store_name := "Apple Sanlitun"
    store_number := none
    city := none
    part_number := "MTUV3CH/A"
    product_title := none
    pickup_status := "not available today"
    pickup_available := false
    pickup_quote := none }

/-- C1 counterexample: a payload whose "body" level is present but is a number
rather than a mapping makes `iter_availability` raise AttributeError (the
chained `.get` calls of lines 120-125 assume each level answers `.get`), so it
does not return an empty sequence without error as the claim states. -/
theorem c1_counterexample :
    iter_availability [("body", Json.num 3)] "iPhone 17 Pro" none =
      .error .attributeError ∧
    iter_availability [("body", Json.num 3)] "iPhone 17 Pro" none ≠
      .ok [] :=
  ⟨rfl, fun hc => Except.noConfusion hc⟩

/-- C1 (amended): for every payload in which each intermediate level
(body, content, pickupMessage) is absent or a mapping — so the descent does
not raise — and the reached stores value is missing (defaulted to the empty
list), an empty list, or not a list, `iter_availability` returns the empty
sequence and no error, for every model label and filter. -/
theorem c1_missing_path_empty {p : List (String × Json)} (ml : String)
    (pf : Option (List String)) {s : Json}
    (hdesc : descendStores p = .ok s)
    (hs : storesEmptyOrNotList s = true) :
    iter_availability p ml pf = .ok [] := by
  unfold iter_availability
  rw [hdesc]
  cases s with
  | arr xs =>
    cases xs with
    | nil => rfl
    | cons a t => simp [storesEmptyOrNotList] at hs
  | null => rfl
  | bool b => rfl
  | num n => rfl
  | str t =>
    simp only [pyIterate, Except.ok.injEq]
    rw [List.flatten_eq_nil_iff]
    intro x hx
    rw [List.mem_map] at hx
    obtain ⟨j, hj, rfl⟩ := hx
    rw [List.mem_map] at hj
    obtain ⟨c, hc, rfl⟩ := hj
    rfl
  | obj kvs =>
    simp only [pyIterate, Except.ok.injEq]
    rw [List.flatten_eq_nil_iff]
    intro x hx
    rw [List.mem_map] at hx
    obtain ⟨j, hj, rfl⟩ := hx
    rw [List.mem_map] at hj
    obtain ⟨kv, hkv, rfl⟩ := hj
    rfl

/-- C1 witness: the empty payload (every level missing) yields the empty
record sequence. -/
theorem c1_witness : iter_availability [] "iPhone 17 Pro" none = .ok [] :=
  @c1_missing_path_empty [] "iPhone 17 Pro" none (Json.arr []) rfl rfl

/-- C2: every record whose status — `pickup_status` is the lowercased raw
status text, so containment in it is case-insensitive containment in the raw
text — contains "not" or "unavailable" has `pickup_available = false`,
regardless of the allow-list. -/
theorem c2_negation_forces_unavailable {p : List (String × Json)} {ml : String}
    {pf : Option (List String)} {l : List AvailabilityRecord}
    {r : AvailabilityRecord}
    (h : iter_availability p ml pf = .ok l) (hr : r ∈ l)
    (hneg : hasSub "not" r.pickup_status = true ∨
            hasSub "unavailable" r.pickup_status = true) :
    r.pickup_available = false := by
  obtain ⟨havail, -, -⟩ := record_origin h hr
  rw [havail]
  unfold statusToAvail
  rcases hneg with hn | hn <;> simp [hn]

/-- C2 witness: the "Not Available Today" record of the worked example is
reported unavailable. -/
theorem c2_witness : exRecord.pickup_available = false :=
  @c2_negation_forces_unavailable exPayload "iPhone 17 Pro" none [exRecord]
    exRecord rfl (List.mem_singleton.mpr rfl) (Or.inl rfl)

/-- Modelled from the claim text, for comparison only: removal of every
whitespace character (the code of line 152 removes only spaces). -/
def stripAllWhitespace (s : String) : String :=
  String.mk (s.toList.filter (fun c => !c.isWhitespace))

/-- A payload whose status contains a tab between the two words. -/
def tabPayload : List (String × Json) :=
  [("body", Json.obj [("content", Json.obj [("pickupMessage", Json.obj
    [("stores", Json.arr [Json.obj
      [("storeName", Json.str "S"),
       ("partsAvailability", Json.obj
         [("P1", Json.obj
           [("pickupDisplay", Json.str "Available\tToday")])])]])])])])]

/-- The record produced for `tabPayload`. -/
def tabRecord : AvailabilityRecord :=
  { model_label := "iPhone 17 Pro"
    store_name := "S"
    store_number := none
    city := none
    part_number := "P1"
    product_title := none
    pickup_status := "available\ttoday"
    pickup_available := false
    pickup_quote := none }

/-- C3 counterexample: the status "Available\tToday" whitespace-strips and
lowercases to exactly "availabletoday" and matches no negation substring, yet
the emitted record has `pickup_available = false`, because line 152 of
src/main.py removes only space characters, not all whitespace. -/
theorem c3_counterexample :
    stripAllWhitespace (pyLower "Available\tToday") = "availabletoday" ∧
    hasSub "not" (pyLower "Available\tToday") = false ∧
    hasSub "unavailable" (pyLower "Available\tToday") = false ∧
    iter_availability tabPayload "iPhone 17 Pro" none = .ok [tabRecord] ∧
    tabRecord.pickup_available = false :=
  ⟨rfl, rfl, rfl, rfl, rfl⟩

/-- C3 (amended): every record whose status, after removal of space
characters (U+0020 only, the normalization the code performs), is exactly in
the allow-list and which matches no negation substring has
`pickup_available = true`. -/
theorem c3_allowlist_available {p : List (String × Json)} {ml : String}
    {pf : Option (List String)} {l : List AvailabilityRecord}
    {r : AvailabilityRecord}
    (h : iter_availability p ml pf = .ok l) (hr : r ∈ l)
    (hallow : availAllowList (removeSpaces r.pickup_status) = true)
    (hn1 : hasSub "not" r.pickup_status = false)
    (hn2 : hasSub "unavailable" r.pickup_status = false) :
    r.pickup_available = true := by
  obtain ⟨havail, -, -⟩ := record_origin h hr
  rw [havail]
  unfold statusToAvail
  simp [hn1, hn2, hallow]

/-- A payload with status "Available Today" and no negation. -/
def availPayload : List (String × Json) :=
  [("body", Json.obj [("content", Json.obj [("pickupMessage", Json.obj
    [("stores", Json.arr [Json.obj
      [("storeName", Json.str "S"),
       ("partsAvailability", Json.obj
         [("P1", Json.obj
           [("pickupDisplay", Json.str "Available Today")])])]])])])])]

/-- The record produced for `availPayload`. -/
def availRecord : AvailabilityRecord :=
  { model_label := "iPhone 17 Pro"
    store_name := "S"
    store_number := none
    city := none
    part_number := "P1"
    product_title := none
    pickup_status := "available today"
    pickup_available := true
    pickup_quote := none }

/-- C3 witness: the status "Available Today" normalizes to "availabletoday"
and the record is reported available. -/
theorem c3_witness : availRecord.pickup_available = true :=
  @c3_allowlist_available availPayload "iPhone 17 Pro" none [availRecord]
    availRecord rfl (List.mem_singleton.mpr rfl) rfl rfl rfl

/-- A store with a direct "city" value and no "address" substructure. -/
def c6Payload : List (String × Json) :=
  [("body", Json.obj [("content", Json.obj [("pickupMessage", Json.obj
    [("stores", Json.arr [Json.obj
      [("storeName", Json.str "Apple Sanlitun"),
       ("city", Json.str "Beijing"),
       ("partsAvailability", Json.obj
         [("P1", Json.obj
           [("pickupDisplay", Json.str "Available")])])]])])])])]

/-- The record the code produces for `c6Payload`: its city is absent. -/
def c6Record : AvailabilityRecord :=
  { model_label := "iPhone 17 Pro"
    store_name := "Apple Sanlitun"
    store_number := none
    city := none
    part_number := "P1"
    product_title := none
    pickup_status := "available"
    pickup_available := true
    pickup_quote := none }

/-- C6: on a store carrying a direct "city" value but no "address"
substructure, the code emits a record with no city, because the conditional
expression of line 134 of src/main.py groups as
`(store.get("city") or store.get("address", \x7b\x7d).get("city")) if isinstance(store.get("address"), dict) else None`,
so the isinstance guard that was written for the address fallback also
suppresses the direct city whenever "address" is not a mapping. -/
theorem c6_code_behavior :
    iter_availability c6Payload "iPhone 17 Pro" none = .ok [c6Record] ∧
    c6Record.city = none :=
  ⟨rfl, rfl⟩

/-- A payload with a single store offering the single part "A". -/
def c8Payload : List (String × Json) :=
  [("body", Json.obj [("content", Json.obj [("pickupMessage", Json.obj
    [("stores", Json.arr [Json.obj
      [("partsAvailability", Json.obj [("A", Json.obj [])])]])])])])]

/-- The record produced for `c8Payload` when nothing is filtered. -/
def c8Record : AvailabilityRecord :=
  { model_label := "iPhone 17 Pro"
    store_name := "Unknown store"
    store_number := none
    city := none
    part_number := "A"
    product_title := none
    pickup_status := "unknown"
    pickup_available := false
    pickup_quote := none }

/-- C8 counterexample: with the supplied part filter being the empty set, the
part "A" is absent from the filter, yet its record is emitted — an empty set
is falsy in Python, so the skip test of line 139 of src/main.py never fires
and the output is not restricted to the parts the filter contains. -/
theorem c8_counterexample :
    iter_availability c8Payload "iPhone 17 Pro" (some []) = .ok [c8Record] ∧
    ([] : List String).contains c8Record.part_number = false :=
  ⟨rfl, rfl⟩

/-- C8 (amended): for every supplied non-empty part filter, every emitted
record carries a part number belonging to the filter, so parts absent from
the filter produce no record. -/
theorem c8_filter_restricts {p : List (String × Json)} {ml : String}
    {f : List String} {l : List AvailabilityRecord} {r : AvailabilityRecord}
    (hf : f ≠ []) (h : iter_availability p ml (some f) = .ok l) (hr : r ∈ l) :
    r.part_number ∈ f := by
  obtain ⟨-, -, hskip⟩ := record_origin h hr
  have hne : f.isEmpty = false := by
    cases f with
    | nil => exact absurd rfl hf
    | cons a t => rfl
  simp only [partFilterSkip, hne, Bool.not_false, Bool.true_and,
    Bool.not_eq_false'] at hskip
  exact List.elem_iff.mp hskip

/-- C8 witness: with the filter \x7b"A"\x7d the emitted record indeed carries
a part number in the filter. -/
theorem c8_witness : c8Record.part_number ∈ ["A"] :=
  @c8_filter_restricts c8Payload "iPhone 17 Pro" ["A"] [c8Record] c8Record
    (by simp) rfl (List.mem_singleton.mpr rfl)

/-- A payload whose parts map uses the empty string as its key. -/
def c9Payload : List (String × Json) :=
  [("body", Json.obj [("content", Json.obj [("pickupMessage", Json.obj
    [("stores", Json.arr [Json.obj
      [("storeName", Json.str "S"),
       ("partsAvailability", Json.obj [("", Json.obj [])])]])])])])]

/-- The record produced for `c9Payload`: its part number is empty. -/
def c9Record : AvailabilityRecord :=
  { model_label := "iPhone 17 Pro"
    store_name := "S"
    store_number := none
    city := none
    part_number := ""
    product_title := none
    pickup_status := "unknown"
    pickup_available := false
    pickup_quote := none }

/-- C9 counterexample: a parts map keyed by the empty string yields a record
whose `part_number` is the empty string, so the emitted part number is not
always non-empty. -/
theorem c9_counterexample :
    iter_availability c9Payload "iPhone 17 Pro" none = .ok [c9Record] ∧
    c9Record.part_number = "" :=
  ⟨rfl, rfl⟩

/-- C9 (amended): every emitted record carries as `part_number` one of the
keys of a reached parts-availability map — it is always present, being the
map key under which the record was discovered — and is therefore non-empty
whenever every such key is non-empty. -/
theorem c9_part_number_is_key {p : List (String × Json)} {ml : String}
    {pf : Option (List String)} {l : List AvailabilityRecord}
    {r : AvailabilityRecord}
    (h : iter_availability p ml pf = .ok l) (hr : r ∈ l) :
    r.part_number ∈ payloadPartKeys p ∧
    ((∀ k ∈ payloadPartKeys p, k ≠ "") → r.part_number ≠ "") := by
  obtain ⟨-, hmem, -⟩ := record_origin h hr
  exact ⟨hmem, fun hall => hall _ hmem⟩

/-- C9 witness: the part number of the worked-example record is a key of its
parts map and is non-empty. -/
theorem c9_witness :
    exRecord.part_number ∈ payloadPartKeys exPayload ∧
    ((∀ k ∈ payloadPartKeys exPayload, k ≠ "") → exRecord.part_number ≠ "") :=
  @c9_part_number_is_key exPayload "iPhone 17 Pro" none [exRecord] exRecord
    rfl (List.mem_singleton.mpr rfl)

/-! Helper lemmas for the orchestrator: membership in the de-duplicated and
intersected part lists, exhaustion of the retry loop, and the stepping of the
variant loop over benign variants. -/

theorem mem_dedupAux {x : String} :
    ∀ (xs seen : List String), x ∈ dedupAux seen xs ↔ x ∈ xs ∧ x ∉ seen := by
  intro xs
  induction xs with
  | nil => intro seen; simp [dedupAux]
  | cons a t ih =>
    intro seen
    by_cases ha : a ∈ seen
    · have hc : seen.contains a = true := List.elem_iff.mpr ha
      rw [dedupAux, if_pos hc, ih]
      constructor
      · rintro ⟨hxt, hxs⟩
        exact ⟨List.mem_cons_of_mem a hxt, hxs⟩
      · rintro ⟨hxat, hxs⟩
        rcases List.mem_cons.mp hxat with rfl | hxt
        · exact absurd ha hxs
        · exact ⟨hxt, hxs⟩
    · have hc : seen.contains a = false := by
        rw [Bool.eq_false_iff]
        intro hcc
        exact ha (List.elem_iff.mp hcc)
      rw [dedupAux, if_neg (by simpa using ha), List.mem_cons, ih]
      constructor
      · rintro (rfl | ⟨hxt, hxs⟩)
        · exact ⟨List.mem_cons_self _ _, by assumption⟩
        · exact ⟨List.mem_cons_of_mem a hxt, fun hx => hxs (List.mem_cons_of_mem a hx)⟩
      · rintro ⟨hxat, hxs⟩
        rcases List.mem_cons.mp hxat with rfl | hxt
        · exact Or.inl rfl
        · by_cases hxa : x = a
          · exact Or.inl hxa
          · exact Or.inr ⟨hxt, fun hx => (List.mem_cons.mp hx).elim hxa hxs⟩

theorem mem_dictFromKeys {x : String} {xs : List String} :
    x ∈ dictFromKeys xs ↔ x ∈ xs := by
  rw [dictFromKeys, mem_dedupAux]
  simp

theorem dedupAux_eq_self :
    ∀ (xs seen : List String), xs.Nodup → (∀ x ∈ xs, x ∉ seen) →
      dedupAux seen xs = xs := by
  intro xs
  induction xs with
  | nil => intro seen _ _; rfl
  | cons a t ih =>
    intro seen hnd hout
    have ha : a ∉ seen := hout a (List.mem_cons_self a t)
    have hc : seen.contains a = false := by
      rw [Bool.eq_false_iff]
      intro hcc
      exact ha (List.elem_iff.mp hcc)
    rw [dedupAux, if_neg (by simpa using ha)]
    congr 1
    refine ih (a :: seen) (List.Nodup.of_cons hnd) ?_
    intro x hx hmem
    rcases List.mem_cons.mp hmem with rfl | hseen
    · exact (List.nodup_cons.mp hnd).1 hx
    · exact hout x (List.mem_cons_of_mem a hx) hseen

theorem dictFromKeys_eq_self {xs : List String} (h : xs.Nodup) :
    dictFromKeys xs = xs :=
  dedupAux_eq_self xs [] h (by simp)

theorem mem_pyInter {x : String} {a b : List String} :
    x ∈ pyInter a b ↔ x ∈ a ∧ x ∈ b := by
  rw [pyInter, List.mem_filter]
  exact and_congr_right fun _ => List.elem_iff

theorem mem_pySet {x : String} {xs : List String} :
    x ∈ pySet xs ↔ x ∈ xs := mem_dictFromKeys

theorem pyInter_disjoint {a b : List String} (h : ∀ x ∈ a, x ∉ b) :
    pyInter (pySet a) (pySet b) = [] := by
  rcases hcase : pyInter (pySet a) (pySet b) with _ | ⟨x, t⟩
  · rfl
  · exfalso
    have hx : x ∈ pyInter (pySet a) (pySet b) := by rw [hcase]; simp
    obtain ⟨hxa, hxb⟩ := mem_pyInter.mp hx
    exact h x (mem_pySet.mp hxa) (mem_pySet.mp hxb)

theorem fetchLoop_all_errors (atts : List AttemptResult) (hne : atts ≠ [])
    (hall : ∀ a ∈ atts, a = .transportError) : fetchLoop atts = .failed := by
  induction atts with
  | nil => exact absurd rfl hne
  | cons a rest ih =>
    have ha := hall a (List.mem_cons_self a rest)
    subst ha
    cases rest with
    | nil => rfl
    | cons b rest2 =>
      have hstep : fetchLoop (.transportError :: b :: rest2) = fetchLoop (b :: rest2) := rfl
      rw [hstep]
      exact ih (by simp) (fun x hx => hall x (List.mem_cons_of_mem _ hx))

theorem mainLoop_cons_benign (cli : List String)
    (v : ModelQuery × List AttemptResult)
    (rest : List (ModelQuery × List AttemptResult))
    (hv : benign cli v = true) :
    mainLoop cli (v :: rest) = mainLoop cli rest := by
  obtain ⟨q0, atts0⟩ := v
  cases hpv : processVariant q0 cli atts0
  case transportFailure => simp [benign, hpv] at hv
  case crashed e => simp [benign, hpv] at hv
  case noData => simp [mainLoop, hpv]
  case noOverlap => simp [mainLoop, hpv]
  case noRecords => simp [mainLoop, hpv]
  case printed rs => simp [mainLoop, hpv]

theorem lookupLabel_some {models : List ModelQuery} {l : String} {m : ModelQuery}
    (h : lookupLabel models l = some m) : m ∈ models ∧ m.label = l := by
  unfold lookupLabel at h
  have hmem := List.mem_of_mem_getLast? h
  rw [List.mem_filter] at hmem
  exact ⟨hmem.1, by simpa using hmem.2⟩

theorem resolveLabels_ok {labels : List String}
    (h : ∀ l ∈ labels, (lookupLabel DEFAULT_MODELS l).isSome = true) :
    ∃ ms, resolveLabels labels = .ok ms ∧ ms.map ModelQuery.label = labels ∧
      ∀ m ∈ ms, m ∈ DEFAULT_MODELS := by
  induction labels with
  | nil => exact ⟨[], rfl, rfl, by simp⟩
  | cons l rest ih =>
    obtain ⟨m, hm⟩ := Option.isSome_iff_exists.mp (h l (List.mem_cons_self l rest))
    obtain ⟨ms, hms, hmap, hmem⟩ := ih (fun x hx => h x (List.mem_cons_of_mem l hx))
    obtain ⟨hmdl, hlbl⟩ := lookupLabel_some hm
    refine ⟨m :: ms, ?_, ?_, ?_⟩
    · simp [resolveLabels, hm, hms]
    · simp [hmap, hlbl]
    · intro m2 hm2
      rcases List.mem_cons.mp hm2 with rfl | hm2t
      · exact hmdl
      · exact hmem m2 hm2t

/-- The "iPhone 17 Pro" catalog entry. -/
def proQuery : ModelQuery :=
  { label := "iPhone 17 Pro", search_term := "iPhone 17 Pro" }

/-- C7 counterexample: the selection that repeats "iPhone 17 Pro" resolves to
a list containing the Pro entry twice — `resolve_model_queries` maps each
requested label independently (line 223 of src/main.py), so its result can
contain duplicates and follows request order, not catalog order. -/
theorem c7_counterexample :
    resolve_model_queries (some ["iPhone 17 Pro", "iPhone 17 Pro"]) =
      .ok [proQuery, proQuery] ∧
    ¬ ([proQuery, proQuery].Nodup) :=
  ⟨rfl, by decide⟩

/-- C7 (amended): a falsy selection (None or the empty list) resolves to the
full catalog in catalog order, and a non-empty selection of catalog labels
resolves to one catalog entry per requested label, in request order — so
duplicates mirror repeated labels, and every returned model belongs to the
catalog; an unknown label raises KeyError rather than returning anything. -/
theorem c7_resolution (labels : List String) (hne : labels ≠ [])
    (h : ∀ l ∈ labels, (lookupLabel DEFAULT_MODELS l).isSome = true) :
    resolve_model_queries none = .ok DEFAULT_MODELS ∧
    resolve_model_queries (some []) = .ok DEFAULT_MODELS ∧
    ∃ ms, resolve_model_queries (some labels) = .ok ms ∧
      ms.map ModelQuery.label = labels ∧ ∀ m ∈ ms, m ∈ DEFAULT_MODELS := by
  refine ⟨rfl, rfl, ?_⟩
  obtain ⟨ms, hms, hmap, hmem⟩ := resolveLabels_ok h
  refine ⟨ms, ?_, hmap, hmem⟩
  cases labels with
  | nil => exact absurd rfl hne
  | cons l rest => exact hms

/-- C7 witness: the selection ["iPhone 17 Pro Max"] resolves to the Pro Max
entry alone, which carries the requested label and is in the catalog. -/
theorem c7_witness :
    resolve_model_queries none = .ok DEFAULT_MODELS ∧
    resolve_model_queries (some []) = .ok DEFAULT_MODELS ∧
    ∃ ms, resolve_model_queries (some ["iPhone 17 Pro Max"]) = .ok ms ∧
      ms.map ModelQuery.label = ["iPhone 17 Pro Max"] ∧
      ∀ m ∈ ms, m ∈ DEFAULT_MODELS :=
  c7_resolution ["iPhone 17 Pro Max"] (by simp)
    (fun l hl => by rw [List.mem_singleton.mp hl]; rfl)

/-- C4: for every variant whose fixed part list is duplicate-free (the data
model treats the fixed part numbers as a set) and every caller part list, the
part list sent to fetch is the fixed parts extended with the caller parts
de-duplicated in first-seen order, the worked example fixed ["A","B"] with
caller ["B","C"] requests ["A","B","C"] with post-fetch filter \x7b"B"\x7d,
the post-fetch filter is membership-wise the intersection of the two sides,
and with no parts on either side nothing is sent and no filter applies. -/
theorem c4_filter_merge (qp cli : List String) (hnd : qp.Nodup) :
    (qp ++ cli ≠ [] → requested_parts qp cli = some (dictFromKeys (qp ++ cli))) ∧
    (requested_parts [] [] = none ∧ combined_filter [] [] = .proceed none) ∧
    requested_parts ["A", "B"] ["B", "C"] = some ["A", "B", "C"] ∧
    combined_filter ["A", "B"] ["B", "C"] = .proceed (some ["B"]) ∧
    (qp ≠ [] → cli ≠ [] → (∃ x, x ∈ qp ∧ x ∈ cli) →
      ∃ f, combined_filter qp cli = .proceed (some f) ∧
        ∀ x, x ∈ f ↔ x ∈ qp ∧ x ∈ cli) := by
  refine ⟨?_, ⟨rfl, rfl⟩, rfl, rfl, ?_⟩
  · intro hne
    cases cli with
    | nil =>
      rw [List.append_nil] at hne ⊢
      cases qp with
      | nil => exact absurd rfl hne
      | cons a t =>
        rw [dictFromKeys_eq_self hnd]
        rfl
    | cons c cs =>
      cases qp with
      | nil => rfl
      | cons a t => rfl
  · intro hqp hcli hex
    obtain ⟨x, hxq, hxc⟩ := hex
    have hq : qp.isEmpty = false := by
      cases qp with
      | nil => exact absurd rfl hqp
      | cons a t => rfl
    have hc : cli.isEmpty = false := by
      cases cli with
      | nil => exact absurd rfl hcli
      | cons a t => rfl
    have hmem : x ∈ pyInter (pySet qp) (pySet cli) :=
      mem_pyInter.mpr ⟨mem_pySet.mpr hxq, mem_pySet.mpr hxc⟩
    have hcfne : (pyInter (pySet qp) (pySet cli)).isEmpty = false := by
      cases hcc : pyInter (pySet qp) (pySet cli) with
      | nil => rw [hcc] at hmem; simp at hmem
      | cons y ys => rfl
    refine ⟨pyInter (pySet qp) (pySet cli), ?_, ?_⟩
    · simp [combined_filter, hq, hc, hcfne]
    · intro x0
      rw [mem_pyInter, mem_pySet, mem_pySet]

/-- C4 witness: the worked merge example at fixed ["A","B"], caller
["B","C"]. -/
theorem c4_witness :
    requested_parts ["A", "B"] ["B", "C"] = some ["A", "B", "C"] ∧
    combined_filter ["A", "B"] ["B", "C"] = .proceed (some ["B"]) :=
  ⟨(c4_filter_merge ["A", "B"] ["B", "C"] (by decide)).2.2.1,
   (c4_filter_merge ["A", "B"] ["B", "C"] (by decide)).2.2.2.1⟩

/-- C5: for every variant with a non-empty fixed part list disjoint from a
non-empty caller part list, and a fetch that produced a payload, the filter
merge decides the "No overlapping part numbers" skip, the variant outcome is
that skip — normalization is never invoked, so zero records — and the loop of
`main` continues with the remaining variants unchanged. -/
theorem c5_no_overlap (q : ModelQuery) (qp cli : List String)
    (atts : List AttemptResult) (d : List (String × Json))
    (rest : List (ModelQuery × List AttemptResult))
    (hq : q.part_numbers = some qp) (h1 : qp ≠ []) (h2 : cli ≠ [])
    (h3 : ∀ x ∈ qp, x ∉ cli) (h4 : fetchLoop atts = .payload d) :
    combined_filter qp cli = .skipNoOverlap ∧
    processVariant q cli atts = .noOverlap ∧
    mainLoop cli ((q, atts) :: rest) = mainLoop cli rest := by
  have hqe : qp.isEmpty = false := by
    cases qp with
    | nil => exact absurd rfl h1
    | cons a t => rfl
  have hce : cli.isEmpty = false := by
    cases cli with
    | nil => exact absurd rfl h2
    | cons a t => rfl
  have hdisj : pyInter (pySet qp) (pySet cli) = [] := pyInter_disjoint h3
  have hcf : combined_filter qp cli = .skipNoOverlap := by
    simp [combined_filter, hqe, hce, hdisj]
  have hpv : processVariant q cli atts = .noOverlap := by
    simp [processVariant, h4, hq, hcf]
  refine ⟨hcf, hpv, ?_⟩
  exact mainLoop_cons_benign cli (q, atts) rest (by simp [benign, hpv])

/-- C5 witness: fixed parts ["A"], caller parts ["B"], a successful fetch. -/
theorem c5_witness :
    combined_filter ["A"] ["B"] = .skipNoOverlap ∧
    processVariant { label := "m", search_term := "m", part_numbers := some ["A"] }
      ["B"] [AttemptResult.ok []] = .noOverlap ∧
    mainLoop ["B"]
      [({ label := "m", search_term := "m", part_numbers := some ["A"] },
        [AttemptResult.ok []])] = mainLoop ["B"] [] :=
  c5_no_overlap _ ["A"] ["B"] [AttemptResult.ok []] [] [] rfl (by simp)
    (by simp) (by decide) rfl

theorem mainLoop_append_failure (cli : List String) (q : ModelQuery)
    (atts : List AttemptResult) (post : List (ModelQuery × List AttemptResult))
    (hne : atts ≠ []) (hall : ∀ a ∈ atts, a = AttemptResult.transportError) :
    ∀ pre, (∀ v ∈ pre, benign cli v = true) →
      mainLoop cli (pre ++ (q, atts) :: post) = .ok 1 := by
  intro pre
  induction pre with
  | nil =>
    intro _
    have hpv : processVariant q cli atts = .transportFailure := by
      simp [processVariant, fetchLoop_all_errors atts hne hall]
    simp [mainLoop, hpv]
  | cons v pre2 ih =>
    intro hpre
    rw [List.cons_append,
      mainLoop_cons_benign cli v _ (hpre v (List.mem_cons_self v pre2))]
    exact ih (fun x hx => hpre x (List.mem_cons_of_mem v hx))

/-- C10 counterexample: a run with no transport failure at all — the single
fetch attempt succeeds — in which `main` neither completes the variants nor
returns exit code 0: the returned payload maps "body" to a number, the
chained `.get` descent raises AttributeError, and the exception propagates
out of `main` uncaught (only OSError is caught, lines 253-257 of
src/main.py). -/
theorem c10_counterexample :
    mainLoop [] [(proQuery, [AttemptResult.ok [("body", Json.num 3)]])] =
      .error .attributeError ∧
    mainLoop [] [(proQuery, [AttemptResult.ok [("body", Json.num 3)]])] ≠
      .ok 0 :=
  ⟨rfl, fun hc => Except.noConfusion hc⟩

/-- C10 (amended): when a variant is reached (all earlier variants benign)
and all of its fetch attempts fail with a transport error, `main` returns
exit code 1 without processing the remaining variants; and whenever every
variant is benign — it neither exhausts its attempts nor makes normalization
raise; variants with no data or all records filtered out are benign — `main`
completes all variants and returns exit code 0. -/
theorem c10_exit_codes (cli : List String)
    (vs : List (ModelQuery × List AttemptResult)) :
    ((∀ v ∈ vs, benign cli v = true) → mainLoop cli vs = .ok 0) ∧
    (∀ pre post q atts, vs = pre ++ (q, atts) :: post →
      (∀ v ∈ pre, benign cli v = true) → atts ≠ [] →
      (∀ a ∈ atts, a = AttemptResult.transportError) →
      mainLoop cli vs = .ok 1) := by
  constructor
  · induction vs with
    | nil => intro _; rfl
    | cons v rest ih =>
      intro hb
      rw [mainLoop_cons_benign cli v rest (hb v (List.mem_cons_self v rest))]
      exact ih (fun x hx => hb x (List.mem_cons_of_mem v hx))
  · intro pre post q atts hvs hpre hne hall
    subst hvs
    exact mainLoop_append_failure cli q atts post hne hall pre hpre

/-- C10 witness: one variant whose single attempt fails gives exit code 1. -/
theorem c10_witness :
    mainLoop [] [(proQuery, [AttemptResult.transportError])] = .ok 1 :=
  (c10_exit_codes [] [(proQuery, [AttemptResult.transportError])]).2
    [] [] proQuery [AttemptResult.transportError] rfl (by simp) (by simp)
    (fun a ha => List.mem_singleton.mp ha)

end AAPLTracker
